import Mathlib

/-!
Shallow embedding of the inworld Go client library (github.com/psyhatter/inworld).

The embedding models:
* the JSON values exchanged on the wire (`Json`),
* the structured error envelope (`Error`, src/client.go),
* the transport core `sendRequest` / `sendStudioAPIRequest` / `sendSimpleAPIRequest`
  (src/client.go) together with the body-close `combine` logic,
* request construction and required-identifier validation of the facade
  operations (src/scenes.go, src/deployments.go, src/common_knowledge.go,
  src/simple_api.go, src/unnamed/part_001 = characters file).

HTTP transport (`http.Client.Do`), body reading, body closing and the standard
JSON parser are external effects; they are modelled by an oracle: an
`HttpResponse` record carries the status code, the raw body bytes, the result
of parsing those bytes as JSON, and the outcomes of the read and close steps.
-/

namespace Inworld

/-- JSON values, the wire format of the API. -/
inductive Json where
  | null
  | bool (b : Bool)
  | num (n : Int)
  | str (s : String)
  | arr (xs : List Json)
  | obj (fields : List (String × Json)) -- field name ↦ value, in emission order

/-- Error mirrors the `Error` struct in src/client.go: a gRPC-style code, a
message and opaque details.  `codes.OK` is the numeric value 0. -/
structure Error where
  code : Int
  message : String
  details : List Json

/-- Go `error` values produced by the client, tagged by construction site
(src/client.go and the facade validation sites).  `joined` models
`errors.Join` as produced by `combine`. -/
inductive GoError where
  | transport (msg : String)      -- c.client.Do failed (wrapped with stack)
  | readBody (msg : String)       -- io.ReadAll failed ("reading http body")
  | validation (msg : String)     -- errors.New at a facade validation site
  | structured (e : Error)        -- the decoded error envelope itself
  | generic (status : Nat) (snippet : List Nat) -- "request failed with status %d: %s"
  | decodeFail (typeName : String) (msg : String) (snippet : List Nat)
      -- "json unmarshaling to %T: %s"
  | closeFail (msg : String)      -- resp.Body.Close failed
  | joined (e1 e2 : GoError)      -- stderrors.Join(err1, err2)

/-- combine from src/client.go lines 159-167. -/
def combine : Option GoError → Option GoError → Option GoError
  | none, err2 => err2
  | some e1, none => some e1
  | some e1, some e2 => some (.joined e1 e2)

/-- limit from src/client.go lines 133-138: truncate `v` to at most `n` bytes. -/
def limit (v : List Nat) (n : Nat) : List Nat :=
  if v.length > n then v.take n else v

/-- lookupField finds the first binding of key `k` in a JSON object's field
list, as the standard JSON decoder does for struct fields. -/
def lookupField (k : String) : List (String × Json) → Option Json
  | [] => none
  | (k2, v) :: rest => if k2 = k then some v else lookupField k rest

/-- decodeStringField models decoding a JSON object field into a Go `string`:
an absent or null field keeps the zero value "". -/
def decodeStringField : Option Json → Except String String
  | none => .ok ""
  | some .null => .ok ""
  | some (.str s) => .ok s
  | some _ => .error "cannot unmarshal into string"

/-- decodeBoolField models decoding a JSON object field into a Go `bool`. -/
def decodeBoolField : Option Json → Except String Bool
  | none => .ok false
  | some .null => .ok false
  | some (.bool b) => .ok b
  | some _ => .error "cannot unmarshal into bool"

/-- decodeNumField models decoding a JSON object field into a Go integer
(`codes.Code` decodes from a JSON number). -/
def decodeNumField : Option Json → Except String Int
  | none => .ok 0
  | some .null => .ok 0
  | some (.num n) => .ok n
  | some _ => .error "cannot unmarshal into number"

/-- decodeListField models decoding a JSON object field into `[]interface{}`:
each element stays an opaque JSON value. -/
def decodeListField : Option Json → Except String (List Json)
  | none => .ok []
  | some .null => .ok []
  | some (.arr xs) => .ok xs
  | some _ => .error "cannot unmarshal into array"

/-- decodeError models `json.Decode(&e)` into the `Error` struct of
src/client.go (tags: "code", "message", "details").  Decoding the JSON
literal null leaves the zero value. -/
def decodeError : Json → Except String Error
  | .null => .ok { code := 0, message := "", details := [] }
  | .obj fs => do
      let code ← decodeNumField (lookupField "code" fs)
      let message ← decodeStringField (lookupField "message" fs)
      let details ← decodeListField (lookupField "details" fs)
      .ok { code := code, message := message, details := details }
  | _ => .error "cannot unmarshal into Error"

/-- HttpResponse models `*http.Response` together with the outcomes of the
external effects `io.ReadAll` (readErr), the standard JSON parse of the body
bytes (parsed), and `resp.Body.Close()` (closeErr). -/
structure HttpResponse where
  statusCode : Nat
  readErr : Option String
  rawBody : List Nat
  parsed : Except String Json
  closeErr : Option String

/-- sendRequestCore is the body of `sendRequest` (src/client.go lines 107-130)
after `c.client.Do` has succeeded and before the deferred close runs: read the
body, classify by status code, decode the error envelope or the success type. -/
def sendRequestCore {T : Type} (dec : Json → Except String T) (typeName : String)
    (dflt : T) (resp : HttpResponse) : T × Option GoError :=
  match resp.readErr with
  | some e => (dflt, some (.readBody e))
  | none =>
    if resp.statusCode < 200 ∨ 400 ≤ resp.statusCode then
      match resp.parsed.bind decodeError with
      | .error _ =>
          (dflt, some (.generic resp.statusCode (limit resp.rawBody 200)))
      | .ok e =>
          if e.code = 0 then
            (dflt, some (.generic resp.statusCode (limit resp.rawBody 200)))
          else
            (dflt, some (.structured e))
    else
      match resp.parsed.bind dec with
      | .error m => (dflt, some (.decodeFail typeName m (limit resp.rawBody 200)))
      | .ok v => (v, none)

/-- SendOutcome is the observable result of one dispatch: the returned value,
the returned error, and whether the response body was closed. -/
structure SendOutcome (T : Type) where
  value : T
  err : Option GoError
  bodyClosed : Bool

/-- sendRequest models `sendRequest[T]` (src/client.go lines 99-131).  When
`Do` fails the error is returned at once and no body exists to close; otherwise
the deferred `err = combine(err, resp.Body.Close())` always runs. -/
def sendRequest {T : Type} (dec : Json → Except String T) (typeName : String)
    (dflt : T) (doResult : Except String HttpResponse) : SendOutcome T :=
  match doResult with
  | .error e => { value := dflt, err := some (.transport e), bodyClosed := false }
  | .ok resp =>
      let r := sendRequestCore dec typeName dflt resp
      { value := r.1
        err := combine r.2 (resp.closeErr.map GoError.closeFail)
        bodyClosed := true }

/-- Headers model `http.Header` restricted to single-valued keys, which is all
the client ever sets (`Header.Set` replaces any previous value). -/
abbrev Headers := List (String × String)

/-- headerSet models `r.Header.Set(k, v)`: replace any binding of `k`. -/
def headerSet (h : Headers) (k v : String) : Headers :=
  (k, v) :: h.filter (fun p => p.1 ≠ k)

/-- headerGet models `r.Header.Get(k)` (as an `Option` instead of ""). -/
def headerGet (k : String) : Headers → Option String
  | [] => none
  | (k2, v) :: rest => if k2 = k then some v else headerGet k rest

/-- GoURL models `*url.URL` as the fixed host plus the path elements appended
by `JoinPath`, plus the encoded query parameters in insertion order. -/
structure GoURL where
  host : String
  path : List String
  query : List (String × String) := []

/-- joinPath models `(*url.URL).JoinPath`. -/
def GoURL.joinPath (u : GoURL) (elems : List String) : GoURL :=
  { u with path := u.path ++ elems }

/-- api is the base URL "https://api.inworld.ai" (src/client.go lines 72-83). -/
def api : GoURL := { host := "https://api.inworld.ai", path := [] }

/-- apiV1 is the "simple" family base path `.../v1`. -/
def apiV1 : GoURL := api.joinPath ["v1"]

/-- apiStudioV1 is the "studio" family base path `.../studio/v1`. -/
def apiStudioV1 : GoURL := api.joinPath ["studio/v1"]

/-- RequestBody models the request body: `http.NoBody`, or a `jsonReader`
over a value (whose bytes are the JSON encoding of that value). -/
inductive RequestBody where
  | noBody
  | jsonBody (v : Json)

/-- newReader models `newReader(v)`/`jsonReader` (src/client.go lines 140-157):
the produced reader yields exactly the JSON encoding of `v`, here represented
as the already-encoded JSON value. -/
def newReader (encoded : Json) : RequestBody := .jsonBody encoded

/-- Request models `*http.Request` as built by the facade operations. -/
structure Request where
  method : String
  url : GoURL
  body : RequestBody
  headers : Headers := []

/-- Transport is the oracle for `http.Client.Do`: either a transport failure
or an `HttpResponse` (with its read/parse/close outcomes). -/
abbrev Transport := Request → Except String HttpResponse

/-- Client mirrors the `Client` struct of src/client.go; the embedded
`http.Client` is the transport oracle. -/
structure Client where
  simpleAPIKey : String
  studioAPIKey : String
  client : Transport

/-- studioAuth is the header mutation of `sendStudioAPIRequest`
(src/client.go lines 85-89). -/
def studioAuth (c : Client) (r : Request) : Request :=
  let h := headerSet r.headers "Authorization" ("Basic " ++ c.studioAPIKey)
  { r with headers := headerSet h "Grpc-Metadata-X-Authorization-Bearer-Type" "studio_api" }

/-- simpleAuth is the header mutation of `sendSimpleAPIRequest`
(src/client.go lines 91-97). -/
def simpleAuth (c : Client) (sessionID : String) (r : Request) : Request :=
  let h := headerSet r.headers "Authorization" ("Basic " ++ c.simpleAPIKey)
  { r with headers :=
      (if sessionID ≠ "" then headerSet h "Grpc-Metadata-Session-Id" sessionID else h) }

/-- sendStudioAPIRequest models `sendStudioAPIRequest[T]` (src/client.go
lines 85-89): set the studio headers, then dispatch. -/
def sendStudioAPIRequest {T : Type} (dec : Json → Except String T) (typeName : String)
    (dflt : T) (c : Client) (r : Request) : SendOutcome T :=
  sendRequest dec typeName dflt (c.client (studioAuth c r))

/-- sendSimpleAPIRequest models `sendSimpleAPIRequest[T]` (src/client.go
lines 91-97). -/
def sendSimpleAPIRequest {T : Type} (dec : Json → Except String T) (typeName : String)
    (dflt : T) (c : Client) (r : Request) (sessionID : String) : SendOutcome T :=
  sendRequest dec typeName dflt (c.client (simpleAuth c sessionID r))

/-- runStudio runs a facade operation: a failed validation returns the
`errors.New` value at once (before any network call); otherwise the built
request is dispatched through `sendStudioAPIRequest`. -/
def runStudio {T : Type} (dec : Json → Except String T) (typeName : String)
    (dflt : T) (c : Client) (built : Except String Request) : SendOutcome T :=
  match built with
  | .error msg => { value := dflt, err := some (.validation msg), bodyClosed := false }
  | .ok r => sendStudioAPIRequest dec typeName dflt c r

/-- networkCalls counts the HTTP round trips an operation performs:
`sendRequest` invokes `c.client.Do` exactly once, and it is reached exactly
when request construction (including validation) succeeded. -/
def networkCalls (built : Except String Request) : Nat :=
  match built with
  | .error _ => 0
  | .ok _ => 1

/-- TypeTag models the anonymous `struct { Type string `"@type"` }` nested in
the deployment responses (src/deployments.go). -/
structure TypeTag where
  type : String

/-- decodeTypeTagField models decoding a JSON object field into a `TypeTag`
sub-struct. -/
def decodeTypeTagField : Option Json → Except String TypeTag
  | none => .ok ⟨""⟩
  | some .null => .ok ⟨""⟩
  | some (.obj fs) => do
      let t ← decodeStringField (lookupField "@type" fs)
      .ok ⟨t⟩
  | some _ => .error "cannot unmarshal into object"

/-- DeploymentResponse mirrors the struct in src/deployments.go lines 55-69
(tags: "name", "metadata", "done"). -/
structure DeploymentResponse where
  name : String
  metadata : TypeTag
  done : Bool

/-- DeploymentResponse.zero is the Go zero value `DeploymentResponse{}`. -/
def DeploymentResponse.zero : DeploymentResponse := ⟨"", ⟨""⟩, false⟩

/-- decodeDeploymentResponse models `json.Decode` into `DeploymentResponse`. -/
def decodeDeploymentResponse : Json → Except String DeploymentResponse
  | .null => .ok DeploymentResponse.zero
  | .obj fs => do
      let n ← decodeStringField (lookupField "name" fs)
      let md ← decodeTypeTagField (lookupField "metadata" fs)
      let dn ← decodeBoolField (lookupField "done" fs)
      .ok ⟨n, md, dn⟩
  | _ => .error "cannot unmarshal into DeploymentResponse"

/-- encodeDeploymentResponse is the JSON encoding of a `DeploymentResponse`
per its struct tags (no omitempty: every field is emitted). -/
def encodeDeploymentResponse (d : DeploymentResponse) : Json :=
  .obj [("name", .str d.name),
        ("metadata", .obj [("@type", .str d.metadata.type)]),
        ("done", .bool d.done)]

/-- CheckDeploymentStatusResponse mirrors the struct in src/deployments.go
lines 41-53 (tags: "name", "metadata", "done", "response"). -/
structure CheckDeploymentStatusResponse where
  name : String
  metadata : TypeTag
  done : Bool
  response : TypeTag

/-- CheckDeploymentStatusResponse.zero is the Go zero value. -/
def CheckDeploymentStatusResponse.zero : CheckDeploymentStatusResponse :=
  ⟨"", ⟨""⟩, false, ⟨""⟩⟩

/-- decodeCheckDeploymentStatusResponse models `json.Decode` into
`CheckDeploymentStatusResponse`. -/
def decodeCheckDeploymentStatusResponse : Json → Except String CheckDeploymentStatusResponse
  | .null => .ok CheckDeploymentStatusResponse.zero
  | .obj fs => do
      let n ← decodeStringField (lookupField "name" fs)
      let md ← decodeTypeTagField (lookupField "metadata" fs)
      let dn ← decodeBoolField (lookupField "done" fs)
      let rsp ← decodeTypeTagField (lookupField "response" fs)
      .ok ⟨n, md, dn, rsp⟩
  | _ => .error "cannot unmarshal into CheckDeploymentStatusResponse"

/-- encodeCheckDeploymentStatusResponse is the JSON encoding of a
`CheckDeploymentStatusResponse` per its struct tags. -/
def encodeCheckDeploymentStatusResponse (d : CheckDeploymentStatusResponse) : Json :=
  .obj [("name", .str d.name),
        ("metadata", .obj [("@type", .str d.metadata.type)]),
        ("done", .bool d.done),
        ("response", .obj [("@type", .str d.response.type)])]

/-- CommonKnowledge mirrors the struct in src/common_knowledge.go lines
203-221 (tags: "name,omitempty", "displayName,omitempty",
"description,omitempty", "memoryRecords", "inworldTags"). -/
structure CommonKnowledge where
  name : String
  displayName : String
  description : String
  memoryRecords : List String
  inworldTags : List Json

/-- CommonKnowledge.zero is the Go zero value `CommonKnowledge{}`. -/
def CommonKnowledge.zero : CommonKnowledge := ⟨"", "", "", [], []⟩

/-- encodeCommonKnowledge is the JSON encoding a `jsonReader` produces for a
`CommonKnowledge` value: omitempty string fields are dropped when empty, the
two slice fields are always emitted. -/
def encodeCommonKnowledge (k : CommonKnowledge) : Json :=
  .obj ((if k.name = "" then [] else [("name", .str k.name)]) ++
        (if k.displayName = "" then [] else [("displayName", .str k.displayName)]) ++
        (if k.description = "" then [] else [("description", .str k.description)]) ++
        [("memoryRecords", .arr (k.memoryRecords.map .str)),
         ("inworldTags", .arr k.inworldTags)])

/-- decodeStringItems models decoding a JSON array into `[]string`
element by element. -/
def decodeStringItems : List Json → Except String (List String)
  | [] => .ok []
  | .str s :: rest => (decodeStringItems rest).map (s :: ·)
  | _ :: _ => .error "cannot unmarshal into string"

/-- decodeStringListField models decoding a JSON object field into
`[]string`. -/
def decodeStringListField : Option Json → Except String (List String)
  | none => .ok []
  | some .null => .ok []
  | some (.arr xs) => decodeStringItems xs
  | some _ => .error "cannot unmarshal into array"

/-- decodeCommonKnowledge models `json.Decode` into `CommonKnowledge`. -/
def decodeCommonKnowledge : Json → Except String CommonKnowledge
  | .null => .ok CommonKnowledge.zero
  | .obj fs => do
      let n ← decodeStringField (lookupField "name" fs)
      let dn ← decodeStringField (lookupField "displayName" fs)
      let ds ← decodeStringField (lookupField "description" fs)
      let mr ← decodeStringListField (lookupField "memoryRecords" fs)
      let tags ← decodeListField (lookupField "inworldTags" fs)
      .ok ⟨n, dn, ds, mr, tags⟩
  | _ => .error "cannot unmarshal into CommonKnowledge"

/-- CheckDeploymentStatusReq is the validation and request construction of
`Client.CheckDeploymentStatus` (src/deployments.go lines 23-36): an empty
operation id fails before any request exists; otherwise a GET to
`apiStudioV1.JoinPath(operationID)` with `http.NoBody`. -/
def CheckDeploymentStatusReq (operationID : String) : Except String Request :=
  if operationID = "" then .error "operation id cannot be empty"
  else .ok { method := "GET", url := apiStudioV1.joinPath [operationID], body := .noBody }

/-- CheckDeploymentStatus models `Client.CheckDeploymentStatus`
(src/deployments.go lines 23-39). -/
def CheckDeploymentStatus (c : Client) (operationID : String) :
    SendOutcome CheckDeploymentStatusResponse :=
  runStudio decodeCheckDeploymentStatusResponse "inworld.CheckDeploymentStatusResponse"
    CheckDeploymentStatusResponse.zero c (CheckDeploymentStatusReq operationID)

/-- DeploySceneReq is the validation and request construction of
`Client.DeployScene` (src/scenes.go lines 73-86): POST to
`apiStudioV1.JoinPath(sceneID + ":deploy")` with `http.NoBody`. -/
def DeploySceneReq (sceneID : String) : Except String Request :=
  if sceneID = "" then .error "scene id is required"
  else .ok { method := "POST", url := apiStudioV1.joinPath [sceneID ++ ":deploy"], body := .noBody }

/-- DeployScene models `Client.DeployScene` (src/scenes.go lines 73-89). -/
def DeployScene (c : Client) (sceneID : String) : SendOutcome DeploymentResponse :=
  runStudio decodeDeploymentResponse "inworld.DeploymentResponse"
    DeploymentResponse.zero c (DeploySceneReq sceneID)

/-- DeployCharacterReq is the validation and request construction of
`Client.DeployCharacter` (src/unnamed/part_001, characters file): POST to
`apiStudioV1.JoinPath(characterName + ":deploy")` with `http.NoBody`. -/
def DeployCharacterReq (characterName : String) : Except String Request :=
  if characterName = "" then .error "character name is required"
  else .ok { method := "POST", url := apiStudioV1.joinPath [characterName ++ ":deploy"], body := .noBody }

/-- DeployCharacter models `Client.DeployCharacter` (src/unnamed/part_001). -/
def DeployCharacter (c : Client) (characterName : String) : SendOutcome DeploymentResponse :=
  runStudio decodeDeploymentResponse "inworld.DeploymentResponse"
    DeploymentResponse.zero c (DeployCharacterReq characterName)

/-- DeployCommonKnowledgeReq is the validation and request construction of
`Client.DeployCommonKnowledge` (src/common_knowledge.go lines 67-80). -/
def DeployCommonKnowledgeReq (commonKnowledgeID : String) : Except String Request :=
  if commonKnowledgeID = "" then .error "common knowledge id is required"
  else .ok { method := "POST", url := apiStudioV1.joinPath [commonKnowledgeID ++ ":deploy"], body := .noBody }

/-- DeployCommonKnowledge models `Client.DeployCommonKnowledge`
(src/common_knowledge.go lines 67-83). -/
def DeployCommonKnowledge (c : Client) (commonKnowledgeID : String) : SendOutcome DeploymentResponse :=
  runStudio decodeDeploymentResponse "inworld.DeploymentResponse"
    DeploymentResponse.zero c (DeployCommonKnowledgeReq commonKnowledgeID)

/-- GetCharactersRequest mirrors the struct in src/unnamed/part_001
(WorkspaceID is documented `// Required.`; the rest are optional). -/
structure GetCharactersRequest where
  workspaceID : String
  pageSize : Int := 0
  pageToken : String := ""
  view : String := ""
  filter : String := ""

/-- GetCharactersReq is the request construction of `Client.GetCharacters`
(src/unnamed/part_001, characters file, lines 100-129).  Note: unlike every
sibling list operation, it performs no emptiness check on
`req.WorkspaceID` before building the URL and dispatching. -/
def GetCharactersReq (req : GetCharactersRequest) : Except String Request :=
  let u := apiStudioV1.joinPath ["workspaces", req.workspaceID, "characters"]
  let q := (if req.view ≠ "" then [("view", req.view)] else []) ++
           (if req.pageSize > 0 then [("pageSize", toString req.pageSize)] else []) ++
           (if req.pageToken ≠ "" then [("pageToken", req.pageToken)] else []) ++
           (if req.filter ≠ "" then [("filter", req.filter)] else [])
  .ok { method := "GET", url := { u with query := q }, body := .noBody }

/-- GetScenesRequest mirrors the struct in src/scenes.go lines 179-196. -/
structure GetScenesRequest where
  workspaceID : String
  pageSize : Int := 0
  pageToken : String := ""
  filter : String := ""

/-- GetScenesReq is the validation and request construction of
`Client.GetScenes` (src/scenes.go lines 95-126): it rejects an empty
WorkspaceID before any request exists. -/
def GetScenesReq (req : GetScenesRequest) : Except String Request :=
  if req.workspaceID = "" then .error "workspace id is required"
  else
    let u := apiStudioV1.joinPath ["workspaces", req.workspaceID, "scenes"]
    let q := (if req.filter ≠ "" then [("filter", req.filter)] else []) ++
             (if req.pageSize > 0 then [("pageSize", toString req.pageSize)] else []) ++
             (if req.pageToken ≠ "" then [("pageToken", req.pageToken)] else [])
    .ok { method := "GET", url := { u with query := q }, body := .noBody }

/-- Parameter mirrors the struct in src/simple_api.go lines 202-207. -/
structure Parameter where
  name : String
  value : String

/-- TriggerEvent mirrors the struct in src/simple_api.go lines 192-197. -/
structure TriggerEvent where
  trigger : String
  parameters : List Parameter

/-- SendTriggerRequest mirrors the struct in src/simple_api.go lines 178-188
(SessionID and SessionCharacter carry the `json:"-"` tag and are not encoded). -/
structure SendTriggerRequest where
  sessionID : String
  sessionCharacter : String
  triggerEvent : TriggerEvent
  endUserID : String := ""

/-- encodeParameter is the JSON encoding of a `Parameter` per its tags. -/
def encodeParameter (p : Parameter) : Json :=
  .obj [("name", .str p.name), ("value", .str p.value)]

/-- encodeTriggerEvent is the JSON encoding of a `TriggerEvent` per its tags
("trigger", "parameters,omitempty"). -/
def encodeTriggerEvent (t : TriggerEvent) : Json :=
  .obj ([("trigger", .str t.trigger)] ++
        (if t.parameters.isEmpty then [] else [("parameters", .arr (t.parameters.map encodeParameter))]))

/-- encodeSendTriggerRequest is the JSON encoding a `jsonReader` produces for
a `SendTriggerRequest` ("-" tagged fields dropped, "endUserId,omitempty"). -/
def encodeSendTriggerRequest (r : SendTriggerRequest) : Json :=
  .obj ([("triggerEvent", encodeTriggerEvent r.triggerEvent)] ++
        (if r.endUserID = "" then [] else [("endUserId", .str r.endUserID)]))

/-- checkParameters is the parameter-validation loop of `Client.SendTrigger`
(src/simple_api.go lines 96-103): the first parameter with an empty Name or
empty Value stops the call with the corresponding `errors.New` message. -/
def checkParameters : List Parameter → Option String
  | [] => none
  | p :: ps =>
      if p.name = "" then some "parameter name is required"
      else if p.value = "" then some "parameter value is required"
      else checkParameters ps

/-- SendTriggerReq is the validation and request construction of
`Client.SendTrigger` (src/simple_api.go lines 83-113): all requireds are
checked in source order before the request is built; the body is
`newReader(req)`. -/
def SendTriggerReq (req : SendTriggerRequest) : Except String Request :=
  if req.sessionID = "" then .error "session id is required"
  else if req.sessionCharacter = "" then .error "session character is required"
  else if req.triggerEvent.trigger = "" then .error "trigger is required"
  else
    match checkParameters req.triggerEvent.parameters with
    | some msg => .error msg
    | none =>
        .ok { method := "POST",
              url := apiV1.joinPath [req.sessionCharacter ++ ":sendTrigger"],
              body := newReader (encodeSendTriggerRequest req) }

/-- okJsonResp is a response with status 200 whose body parses to `j` and
whose read and close steps succeed. -/
def okJsonResp (j : Json) : HttpResponse :=
  { statusCode := 200, readErr := none, rawBody := [], parsed := .ok j, closeErr := none }

/-- DeployPhase: Modelled from the spec: the deployment state machine of the
remote service (spec section 4.2), which is not part of this repository:
PENDING (`done=false`) and DONE (`done=true`, terminal). -/
inductive DeployPhase where
  | pending
  | finished
deriving DecidableEq

/-- phaseStep: Modelled from the spec: the allowed transitions of a
deployment between two successive polls — PENDING may stay PENDING or become
DONE; DONE never transitions again. -/
def phaseStep : DeployPhase → DeployPhase → Bool
  | .pending, _ => true
  | .finished, .finished => true
  | .finished, .pending => false

/-- specTrace: Modelled from the spec: a service-side history of one
operation, one phase per poll instant, following `phaseStep`. -/
def specTrace (f : Nat → DeployPhase) : Prop :=
  ∀ n, phaseStep (f n) (f (n + 1)) = true

/-- phaseDone is the `done` flag the service reports for a phase. -/
def phaseDone : DeployPhase → Bool
  | .pending => false
  | .finished => true

/-- serviceHandle: Modelled from the spec: the LRO resource the service
serializes for a poll, with `done` reflecting the current phase. -/
def serviceHandle (opName : String) (s : DeployPhase) : CheckDeploymentStatusResponse :=
  ⟨opName, ⟨""⟩, phaseDone s, ⟨""⟩⟩

/-- pollTransport: Modelled from the spec: the network as seen by the poll
issued at instant `k` — the service answers 200 with the serialized handle
for its phase at `k`. -/
def pollTransport (opName : String) (f : Nat → DeployPhase) (k : Nat) : Transport :=
  fun _ => .ok (okJsonResp (encodeCheckDeploymentStatusResponse (serviceHandle opName (f k))))

end Inworld

namespace Inworld

theorem decode_encode_deploymentResponse (d : DeploymentResponse) :
    decodeDeploymentResponse (encodeDeploymentResponse d) = .ok d := rfl

theorem decode_encode_checkDeploymentStatusResponse (d : CheckDeploymentStatusResponse) :
    decodeCheckDeploymentStatusResponse (encodeCheckDeploymentStatusResponse d) = .ok d := rfl

theorem decodeStringItems_map (l : List String) :
    decodeStringItems (l.map Json.str) = .ok l := by
  induction l with
  | nil => rfl
  | cons a t ih => simp [decodeStringItems, ih, Except.map]

theorem limit_length_le (v : List Nat) (n : Nat) : (limit v n).length ≤ n := by
  unfold limit
  split
  · rw [List.length_take]
    omega
  · omega

theorem decode_encode_commonKnowledge (k : CommonKnowledge) :
    decodeCommonKnowledge (encodeCommonKnowledge k) = .ok k := by
  obtain ⟨n, dn, ds, mr, tags⟩ := k
  by_cases hn : n = "" <;> by_cases hdn : dn = "" <;> by_cases hds : ds = "" <;>
    simp [encodeCommonKnowledge, decodeCommonKnowledge, lookupField, hn, hdn, hds,
      decodeStringField, decodeStringListField, decodeListField, decodeStringItems_map] <;>
    rfl

theorem sendRequestCore_success {T : Type} (dec : Json → Except String T)
    (typeName : String) (dflt v : T) (resp : HttpResponse)
    (h1 : 200 ≤ resp.statusCode) (h2 : resp.statusCode < 400)
    (hr : resp.readErr = none) (hd : resp.parsed.bind dec = .ok v) :
    sendRequestCore dec typeName dflt resp = (v, none) := by
  have hcond : ¬(resp.statusCode < 200 ∨ 400 ≤ resp.statusCode) := by omega
  simp [sendRequestCore, hr, hcond, hd]

end Inworld

namespace Inworld

/-- C1: for every HTTP response whose status code lies outside [200, 400)
(and whose body read and body close succeed), `sendRequest` returns a
failure: when the body decodes as an `Error` envelope with a code other than
the OK sentinel 0, that envelope is returned unchanged (code, message and
details preserved); when the decode fails or the code equals 0, a generic
failure carrying the raw status code and an at-most-200-byte body snippet is
returned. -/
theorem sendRequest_failure_classification {T : Type} (dec : Json → Except String T)
    (typeName : String) (dflt : T) (resp : HttpResponse)
    (hfail : resp.statusCode < 200 ∨ 400 ≤ resp.statusCode)
    (hread : resp.readErr = none) (hclose : resp.closeErr = none) :
    (∀ e, resp.parsed.bind decodeError = .ok e → e.code ≠ 0 →
        (sendRequest dec typeName dflt (.ok resp)).err = some (.structured e)) ∧
    (((∃ m, resp.parsed.bind decodeError = .error m) ∨
      (∃ e, resp.parsed.bind decodeError = .ok e ∧ e.code = 0)) →
        (sendRequest dec typeName dflt (.ok resp)).err =
          some (.generic resp.statusCode (limit resp.rawBody 200)) ∧
        (limit resp.rawBody 200).length ≤ 200) := by
  constructor
  · intro e he hcode
    simp [sendRequest, sendRequestCore, hread, hfail, he, hcode, hclose, combine]
  · rintro (⟨m, hm⟩ | ⟨e, he, hcode⟩)
    · exact ⟨by simp [sendRequest, sendRequestCore, hread, hfail, hm, hclose, combine],
        limit_length_le _ _⟩
    · exact ⟨by simp [sendRequest, sendRequestCore, hread, hfail, he, hcode, hclose, combine],
        limit_length_le _ _⟩

/-- C1 witness: a concrete 404 response with body
`{"code":3,"message":"invalid argument","details":[]}` yields exactly that
structured error. -/
theorem sendRequest_failure_classification_witness :
    (sendRequest decodeDeploymentResponse "inworld.DeploymentResponse" DeploymentResponse.zero
      (.ok { statusCode := 404, readErr := none, rawBody := [],
             parsed := .ok (.obj [("code", .num 3), ("message", .str "invalid argument"),
                                  ("details", .arr [])]),
             closeErr := none })).err =
      some (.structured ⟨3, "invalid argument", []⟩) :=
  (sendRequest_failure_classification decodeDeploymentResponse "inworld.DeploymentResponse"
      DeploymentResponse.zero _ (by decide) rfl rfl).1 ⟨3, "invalid argument", []⟩ rfl (by decide)

/-- C5: once `Do` succeeded the response body is always closed, even when an
earlier step failed, and when both a primary failure and a close failure
occur the single returned error joins both, discarding neither. -/
theorem sendRequest_closes_and_combines {T : Type} (dec : Json → Except String T)
    (typeName : String) (dflt : T) (resp : HttpResponse) :
    (sendRequest dec typeName dflt (.ok resp)).bodyClosed = true ∧
    (∀ p m, (sendRequestCore dec typeName dflt resp).2 = some p → resp.closeErr = some m →
      (sendRequest dec typeName dflt (.ok resp)).err = some (.joined p (.closeFail m))) := by
  refine ⟨rfl, ?_⟩
  intro p m hp hm
  simp [sendRequest, hp, hm, combine]

/-- C5 witness: with a failing body read and a failing close, the body is
closed and the returned error joins the read failure with the close failure. -/
theorem sendRequest_closes_and_combines_witness :
    (sendRequest decodeDeploymentResponse "inworld.DeploymentResponse" DeploymentResponse.zero
      (.ok { statusCode := 200, readErr := some "boom", rawBody := [],
             parsed := .error "empty", closeErr := some "close failed" })).bodyClosed = true ∧
    (sendRequest decodeDeploymentResponse "inworld.DeploymentResponse" DeploymentResponse.zero
      (.ok { statusCode := 200, readErr := some "boom", rawBody := [],
             parsed := .error "empty", closeErr := some "close failed" })).err =
      some (.joined (.readBody "boom") (.closeFail "close failed")) := by
  have h := sendRequest_closes_and_combines decodeDeploymentResponse "inworld.DeploymentResponse"
    DeploymentResponse.zero
    { statusCode := 200, readErr := some "boom", rawBody := [],
      parsed := .error "empty", closeErr := some "close failed" }
  exact ⟨h.1, h.2 (.readBody "boom") "close failed" rfl rfl⟩

/-- C6: for every response with status in [200, 400) whose body does not
decode into the caller-specified success type, `sendRequest` returns a decode
error carrying the target type's name, the underlying decoder message and an
at-most-200-byte body snippet; the default value is never returned silently
(the error is non-nil). -/
theorem sendRequest_success_decode_failure {T : Type} (dec : Json → Except String T)
    (typeName : String) (dflt : T) (resp : HttpResponse) (m : String)
    (h1 : 200 ≤ resp.statusCode) (h2 : resp.statusCode < 400)
    (hread : resp.readErr = none) (hclose : resp.closeErr = none)
    (hdec : resp.parsed.bind dec = .error m) :
    (sendRequest dec typeName dflt (.ok resp)).err =
      some (.decodeFail typeName m (limit resp.rawBody 200)) ∧
    (limit resp.rawBody 200).length ≤ 200 ∧
    (sendRequest dec typeName dflt (.ok resp)).value = dflt := by
  have hcond : ¬(resp.statusCode < 200 ∨ 400 ≤ resp.statusCode) := by omega
  refine ⟨?_, limit_length_le _ _, ?_⟩ <;>
    simp [sendRequest, sendRequestCore, hread, hcond, hdec, hclose, combine]

/-- C6 witness: a 200 response whose body is a JSON string (not the expected
object) yields the decode error with the type name and empty snippet. -/
theorem sendRequest_success_decode_failure_witness :
    (sendRequest decodeDeploymentResponse "inworld.DeploymentResponse" DeploymentResponse.zero
      (.ok { statusCode := 200, readErr := none, rawBody := [],
             parsed := .ok (.str "oops"), closeErr := none })).err =
      some (.decodeFail "inworld.DeploymentResponse"
        "cannot unmarshal into DeploymentResponse" (limit [] 200)) ∧
    (limit ([] : List Nat) 200).length ≤ 200 ∧
    (sendRequest decodeDeploymentResponse "inworld.DeploymentResponse" DeploymentResponse.zero
      (.ok { statusCode := 200, readErr := none, rawBody := [],
             parsed := .ok (.str "oops"), closeErr := none })).value = DeploymentResponse.zero :=
  sendRequest_success_decode_failure decodeDeploymentResponse "inworld.DeploymentResponse"
    DeploymentResponse.zero _ _ (by decide) (by decide) rfl rfl rfl

/-- C8: for every response with status in [200, 400) whose body is the JSON a
`jsonReader` (`newReader`) produces for a `CommonKnowledge` fixture, dispatch
decodes a value whose fields equal the fixture's, with no error: the encode /
decode pair round-trips exactly. -/
theorem sendRequest_success_roundTrip (k : CommonKnowledge) (resp : HttpResponse)
    (h1 : 200 ≤ resp.statusCode) (h2 : resp.statusCode < 400)
    (hread : resp.readErr = none) (hclose : resp.closeErr = none)
    (hbody : resp.parsed = .ok (encodeCommonKnowledge k)) :
    (sendRequest decodeCommonKnowledge "inworld.CommonKnowledge" CommonKnowledge.zero
      (.ok resp)).value = k ∧
    (sendRequest decodeCommonKnowledge "inworld.CommonKnowledge" CommonKnowledge.zero
      (.ok resp)).err = none := by
  have hdec : resp.parsed.bind decodeCommonKnowledge = .ok k := by
    rw [hbody]
    exact decode_encode_commonKnowledge k
  have hcore := sendRequestCore_success decodeCommonKnowledge "inworld.CommonKnowledge"
    CommonKnowledge.zero k resp h1 h2 hread hdec
  constructor <;> simp [sendRequest, hcore, hclose, combine]

/-- C8 witness: a concrete fixture round-trips through encode and dispatch. -/
theorem sendRequest_success_roundTrip_witness :
    (sendRequest decodeCommonKnowledge "inworld.CommonKnowledge" CommonKnowledge.zero
      (.ok (okJsonResp (encodeCommonKnowledge
        ⟨"workspaces/w/common-knowledge/k1", "kb", "facts", ["a", "b"], []⟩)))).value =
      ⟨"workspaces/w/common-knowledge/k1", "kb", "facts", ["a", "b"], []⟩ ∧
    (sendRequest decodeCommonKnowledge "inworld.CommonKnowledge" CommonKnowledge.zero
      (.ok (okJsonResp (encodeCommonKnowledge
        ⟨"workspaces/w/common-knowledge/k1", "kb", "facts", ["a", "b"], []⟩)))).err = none :=
  sendRequest_success_roundTrip ⟨"workspaces/w/common-knowledge/k1", "kb", "facts", ["a", "b"], []⟩
    _ (by decide) (by decide) rfl rfl rfl

end Inworld

namespace Inworld

/-- C3: on a freshly constructed request, `sendStudioAPIRequest` attaches
Authorization "Basic " + studio key and the studio_api marker header, while
`sendSimpleAPIRequest` attaches Authorization "Basic " + simple key, never
the marker, and the session-id header exactly when the caller supplied a
non-empty session identifier. -/
theorem authHeaders_by_family (c : Client) (r : Request) (sessionID : String)
    (h : r.headers = []) :
    headerGet "Authorization" (studioAuth c r).headers = some ("Basic " ++ c.studioAPIKey) ∧
    headerGet "Grpc-Metadata-X-Authorization-Bearer-Type" (studioAuth c r).headers =
      some "studio_api" ∧
    headerGet "Authorization" (simpleAuth c sessionID r).headers =
      some ("Basic " ++ c.simpleAPIKey) ∧
    headerGet "Grpc-Metadata-X-Authorization-Bearer-Type" (simpleAuth c sessionID r).headers =
      none ∧
    (sessionID ≠ "" →
      headerGet "Grpc-Metadata-Session-Id" (simpleAuth c sessionID r).headers = some sessionID) ∧
    (sessionID = "" →
      headerGet "Grpc-Metadata-Session-Id" (simpleAuth c sessionID r).headers = none) := by
  by_cases hs : sessionID = "" <;>
    simp [studioAuth, simpleAuth, headerSet, headerGet, h, hs]

/-- C3 witness: concrete client, fresh request and session id "sess-1". -/
theorem authHeaders_by_family_witness :
    headerGet "Authorization"
        (studioAuth ⟨"simple-key", "studio-key", fun _ => .error "offline"⟩
          { method := "GET", url := apiV1, body := .noBody }).headers =
      some ("Basic " ++ "studio-key") ∧
    headerGet "Grpc-Metadata-X-Authorization-Bearer-Type"
        (studioAuth ⟨"simple-key", "studio-key", fun _ => .error "offline"⟩
          { method := "GET", url := apiV1, body := .noBody }).headers = some "studio_api" ∧
    headerGet "Authorization"
        (simpleAuth ⟨"simple-key", "studio-key", fun _ => .error "offline"⟩ "sess-1"
          { method := "GET", url := apiV1, body := .noBody }).headers =
      some ("Basic " ++ "simple-key") ∧
    headerGet "Grpc-Metadata-X-Authorization-Bearer-Type"
        (simpleAuth ⟨"simple-key", "studio-key", fun _ => .error "offline"⟩ "sess-1"
          { method := "GET", url := apiV1, body := .noBody }).headers = none ∧
    headerGet "Grpc-Metadata-Session-Id"
        (simpleAuth ⟨"simple-key", "studio-key", fun _ => .error "offline"⟩ "sess-1"
          { method := "GET", url := apiV1, body := .noBody }).headers = some "sess-1" := by
  have h := authHeaders_by_family ⟨"simple-key", "studio-key", fun _ => .error "offline"⟩
    { method := "GET", url := apiV1, body := .noBody } "sess-1" rfl
  exact ⟨h.1, h.2.1, h.2.2.1, h.2.2.2.1, h.2.2.2.2.1 (by decide)⟩

/-- C2 (code bug): `GetCharacters` does not validate its WorkspaceID, which
its own declaration documents as required: with an empty workspace id it
still builds the request (GET `workspaces//characters` under the studio base)
and issues one network call, while `CheckDeploymentStatus` and the sibling
list operation `GetScenes` reject their empty identifiers with zero network
calls, as the claim demands of every operation. -/
theorem getCharacters_skips_required_validation :
    GetCharactersReq { workspaceID := "" } =
      .ok { method := "GET", url := apiStudioV1.joinPath ["workspaces", "", "characters"],
            body := .noBody } ∧
    networkCalls (GetCharactersReq { workspaceID := "" }) = 1 ∧
    CheckDeploymentStatusReq "" = .error "operation id cannot be empty" ∧
    networkCalls (CheckDeploymentStatusReq "") = 0 ∧
    GetScenesReq { workspaceID := "" } = .error "workspace id is required" ∧
    networkCalls (GetScenesReq { workspaceID := "" }) = 0 :=
  ⟨rfl, rfl, rfl, rfl, rfl, rfl⟩

/-- C4 counterexample: a successful deploy call does not always return a
handle with `done = false` — when the service answers 200 with a body whose
`done` is true, `DeployScene` succeeds and the returned handle has
`done = true`. -/
theorem deploy_starts_done_counterexample :
    (DeployScene ⟨"simple-key", "studio-key",
        fun _ => .ok (okJsonResp (encodeDeploymentResponse
          ⟨"workspaces/w/scenes/s1/operations/op1", ⟨"t"⟩, true⟩))⟩
      "workspaces/w/scenes/s1").err = none ∧
    (DeployScene ⟨"simple-key", "studio-key",
        fun _ => .ok (okJsonResp (encodeDeploymentResponse
          ⟨"workspaces/w/scenes/s1/operations/op1", ⟨"t"⟩, true⟩))⟩
      "workspaces/w/scenes/s1").value.done = true :=
  ⟨rfl, rfl⟩

/-- C4 amended: a successful deploy call returns the handle exactly as the
service reported it: `done` mirrors the `done` field of the response body
(false at creation is a remote-service expectation, not enforced by the
client). -/
theorem deployScene_done_mirrors_service (sk tk sceneID : String) (hid : sceneID ≠ "")
    (d : DeploymentResponse) (resp : HttpResponse)
    (h1 : 200 ≤ resp.statusCode) (h2 : resp.statusCode < 400)
    (hread : resp.readErr = none) (hclose : resp.closeErr = none)
    (hbody : resp.parsed = .ok (encodeDeploymentResponse d)) :
    (DeployScene ⟨sk, tk, fun _ => .ok resp⟩ sceneID).err = none ∧
    (DeployScene ⟨sk, tk, fun _ => .ok resp⟩ sceneID).value.done = d.done := by
  have hdec : resp.parsed.bind decodeDeploymentResponse = .ok d := by
    rw [hbody]
    exact decode_encode_deploymentResponse d
  have hcore := sendRequestCore_success decodeDeploymentResponse "inworld.DeploymentResponse"
    DeploymentResponse.zero d resp h1 h2 hread hdec
  have hreq : DeploySceneReq sceneID =
      .ok { method := "POST", url := apiStudioV1.joinPath [sceneID ++ ":deploy"],
            body := .noBody } := by
    simp [DeploySceneReq, hid]
  constructor <;>
    simp [DeployScene, runStudio, hreq, sendStudioAPIRequest, sendRequest, hcore, hclose, combine]

/-- C4 amended witness: a service reporting `done = false` yields a handle
with `done = false`. -/
theorem deployScene_done_mirrors_service_witness :
    (DeployScene ⟨"simple-key", "studio-key",
        fun _ => .ok (okJsonResp (encodeDeploymentResponse
          ⟨"workspaces/w/scenes/s1/operations/op1", ⟨"t"⟩, false⟩))⟩
      "workspaces/w/scenes/s1").err = none ∧
    (DeployScene ⟨"simple-key", "studio-key",
        fun _ => .ok (okJsonResp (encodeDeploymentResponse
          ⟨"workspaces/w/scenes/s1/operations/op1", ⟨"t"⟩, false⟩))⟩
      "workspaces/w/scenes/s1").value.done =
      (⟨"workspaces/w/scenes/s1/operations/op1", ⟨"t"⟩, false⟩ : DeploymentResponse).done :=
  deployScene_done_mirrors_service "simple-key" "studio-key" "workspaces/w/scenes/s1"
    (by decide) ⟨"workspaces/w/scenes/s1/operations/op1", ⟨"t"⟩, false⟩ _
    (by decide) (by decide) rfl rfl rfl

end Inworld

namespace Inworld

/-- C7: for every non-empty resource identifier each deploy operation builds
a POST to the studio base path joined with `{id}:deploy` with an empty body
and dispatches exactly once, and `CheckDeploymentStatus` builds a GET to the
studio base path joined with the operation id and dispatches exactly once;
both decode the success body into the deployment handle type (shown against a
service answering with an encoded handle). -/
theorem deploy_checkStatus_request_shape (id opid : String) (hid : id ≠ "") (hop : opid ≠ "") :
    DeploySceneReq id =
      .ok { method := "POST", url := apiStudioV1.joinPath [id ++ ":deploy"], body := .noBody } ∧
    DeployCharacterReq id =
      .ok { method := "POST", url := apiStudioV1.joinPath [id ++ ":deploy"], body := .noBody } ∧
    DeployCommonKnowledgeReq id =
      .ok { method := "POST", url := apiStudioV1.joinPath [id ++ ":deploy"], body := .noBody } ∧
    CheckDeploymentStatusReq opid =
      .ok { method := "GET", url := apiStudioV1.joinPath [opid], body := .noBody } ∧
    networkCalls (DeploySceneReq id) = 1 ∧
    networkCalls (DeployCharacterReq id) = 1 ∧
    networkCalls (DeployCommonKnowledgeReq id) = 1 ∧
    networkCalls (CheckDeploymentStatusReq opid) = 1 ∧
    (∀ sk tk d, (DeployScene
        ⟨sk, tk, fun _ => .ok (okJsonResp (encodeDeploymentResponse d))⟩ id).value = d) ∧
    (∀ sk tk d, (CheckDeploymentStatus
        ⟨sk, tk, fun _ => .ok (okJsonResp (encodeCheckDeploymentStatusResponse d))⟩ opid).value
      = d) := by
  have hscene : DeploySceneReq id =
      .ok { method := "POST", url := apiStudioV1.joinPath [id ++ ":deploy"], body := .noBody } := by
    simp [DeploySceneReq, hid]
  have hchar : DeployCharacterReq id =
      .ok { method := "POST", url := apiStudioV1.joinPath [id ++ ":deploy"], body := .noBody } := by
    simp [DeployCharacterReq, hid]
  have hck : DeployCommonKnowledgeReq id =
      .ok { method := "POST", url := apiStudioV1.joinPath [id ++ ":deploy"], body := .noBody } := by
    simp [DeployCommonKnowledgeReq, hid]
  have hst : CheckDeploymentStatusReq opid =
      .ok { method := "GET", url := apiStudioV1.joinPath [opid], body := .noBody } := by
    simp [CheckDeploymentStatusReq, hop]
  refine ⟨hscene, hchar, hck, hst, ?_, ?_, ?_, ?_, ?_, ?_⟩
  · simp [networkCalls, hscene]
  · simp [networkCalls, hchar]
  · simp [networkCalls, hck]
  · simp [networkCalls, hst]
  · intro sk tk d
    have hcore := sendRequestCore_success decodeDeploymentResponse "inworld.DeploymentResponse"
      DeploymentResponse.zero d
      { statusCode := 200, readErr := none, rawBody := [],
        parsed := .ok (encodeDeploymentResponse d), closeErr := none }
      (by simp) (by simp) rfl (decode_encode_deploymentResponse d)
    simp [DeployScene, runStudio, hscene, sendStudioAPIRequest, sendRequest, hcore, okJsonResp,
      combine]
  · intro sk tk d
    have hcore := sendRequestCore_success decodeCheckDeploymentStatusResponse
      "inworld.CheckDeploymentStatusResponse" CheckDeploymentStatusResponse.zero d
      { statusCode := 200, readErr := none, rawBody := [],
        parsed := .ok (encodeCheckDeploymentStatusResponse d), closeErr := none }
      (by simp) (by simp) rfl (decode_encode_checkDeploymentStatusResponse d)
    simp [CheckDeploymentStatus, runStudio, hst, sendStudioAPIRequest, sendRequest, hcore,
      okJsonResp, combine]

/-- C7 witness: concrete scene id and operation id. -/
theorem deploy_checkStatus_request_shape_witness :
    DeploySceneReq "workspaces/w/scenes/s1" =
      .ok { method := "POST",
            url := apiStudioV1.joinPath ["workspaces/w/scenes/s1" ++ ":deploy"],
            body := .noBody } ∧
    networkCalls (DeploySceneReq "workspaces/w/scenes/s1") = 1 ∧
    networkCalls (CheckDeploymentStatusReq "workspaces/w/scenes/s1/operations/op1") = 1 ∧
    (DeployScene ⟨"sk", "tk", fun _ => .ok (okJsonResp (encodeDeploymentResponse
        ⟨"workspaces/w/scenes/s1/operations/op1", ⟨"t"⟩, false⟩))⟩
      "workspaces/w/scenes/s1").value =
      ⟨"workspaces/w/scenes/s1/operations/op1", ⟨"t"⟩, false⟩ := by
  have h := deploy_checkStatus_request_shape "workspaces/w/scenes/s1"
    "workspaces/w/scenes/s1/operations/op1" (by decide) (by decide)
  exact ⟨h.1, h.2.2.2.2.1, h.2.2.2.2.2.2.2.1,
    h.2.2.2.2.2.2.2.2.1 "sk" "tk" ⟨"workspaces/w/scenes/s1/operations/op1", ⟨"t"⟩, false⟩⟩

end Inworld

namespace Inworld

theorem specTrace_terminal (f : Nat → DeployPhase) (hf : specTrace f)
    (m n : Nat) (hmn : m ≤ n) (hm : f m = .finished) : f n = .finished := by
  induction hmn with
  | refl => exact hm
  | @step k hk ih =>
    have hstep := hf k
    rw [ih] at hstep
    cases hfn : f (k + 1) with
    | pending => rw [hfn] at hstep; simp [phaseStep] at hstep
    | finished => rfl

theorem checkDeploymentStatus_poll_value (sk tk opName opid : String) (hop : opid ≠ "")
    (f : Nat → DeployPhase) (k : Nat) :
    (CheckDeploymentStatus ⟨sk, tk, pollTransport opName f k⟩ opid).value =
      serviceHandle opName (f k) := by
  have hreq : CheckDeploymentStatusReq opid =
      .ok { method := "GET", url := apiStudioV1.joinPath [opid], body := .noBody } := by
    simp [CheckDeploymentStatusReq, hop]
  have hcore := sendRequestCore_success decodeCheckDeploymentStatusResponse
    "inworld.CheckDeploymentStatusResponse" CheckDeploymentStatusResponse.zero
    (serviceHandle opName (f k))
    { statusCode := 200, readErr := none, rawBody := [],
      parsed := .ok (encodeCheckDeploymentStatusResponse (serviceHandle opName (f k))),
      closeErr := none }
    (by simp) (by simp) rfl (decode_encode_checkDeploymentStatusResponse _)
  simp [CheckDeploymentStatus, runStudio, hreq, sendStudioAPIRequest, sendRequest,
    pollTransport, okJsonResp, hcore]

/-- C9: terminal stability of a deployment, against the service state machine
modelled from the spec (PENDING may become DONE, DONE never transitions
again): once one `CheckDeploymentStatus` poll reports `done = true`, every
later poll of the same operation also reports `done = true`. -/
theorem checkDeploymentStatus_terminal_stability (sk tk opName opid : String)
    (hop : opid ≠ "") (f : Nat → DeployPhase) (hf : specTrace f) (m n : Nat) (hmn : m ≤ n)
    (hdone : (CheckDeploymentStatus ⟨sk, tk, pollTransport opName f m⟩ opid).value.done = true) :
    (CheckDeploymentStatus ⟨sk, tk, pollTransport opName f n⟩ opid).value.done = true := by
  rw [checkDeploymentStatus_poll_value sk tk opName opid hop f m] at hdone
  rw [checkDeploymentStatus_poll_value sk tk opName opid hop f n]
  have hm : f m = .finished := by
    cases hfm : f m with
    | pending => rw [hfm] at hdone; simp [serviceHandle, phaseDone] at hdone
    | finished => rfl
  have hn := specTrace_terminal f hf m n hmn hm
  rw [hn]
  rfl

/-- C9 witness: with a service already in the terminal phase, the poll at
instant 0 reports done and so does the poll at instant 3. -/
theorem checkDeploymentStatus_terminal_stability_witness :
    (CheckDeploymentStatus ⟨"sk", "tk",
        pollTransport "workspaces/w/scenes/s1/operations/op1" (fun _ => .finished) 3⟩
      "workspaces/w/scenes/s1/operations/op1").value.done = true :=
  checkDeploymentStatus_terminal_stability "sk" "tk" "workspaces/w/scenes/s1/operations/op1"
    "workspaces/w/scenes/s1/operations/op1" (by decide) (fun _ => .finished) (fun _ => rfl)
    0 3 (by omega) rfl

theorem checkParameters_some_of_bad (ps : List Parameter)
    (h : ∃ p ∈ ps, p.name = "" ∨ p.value = "") : ∃ m, checkParameters ps = some m := by
  induction ps with
  | nil => simp at h
  | cons a t ih =>
    by_cases ha : a.name = ""
    · exact ⟨"parameter name is required", by simp [checkParameters, ha]⟩
    · by_cases hv : a.value = ""
      · exact ⟨"parameter value is required", by simp [checkParameters, ha, hv]⟩
      · obtain ⟨p, hp, hbad⟩ := h
        rcases List.mem_cons.mp hp with hp | hp
        · subst hp
          rcases hbad with h1 | h1
          · exact absurd h1 ha
          · exact absurd h1 hv
        · obtain ⟨m, hm⟩ := ih ⟨p, hp, hbad⟩
          exact ⟨m, by simp [checkParameters, ha, hv, hm]⟩

/-- C10: `SendTrigger` validates every trigger parameter before any network
activity: whenever the session id, session character or trigger is empty, or
any parameter has an empty Name or empty Value, request construction fails
with a caller-input error and zero network calls are issued. -/
theorem sendTrigger_validates_before_network (req : SendTriggerRequest)
    (hbad : req.sessionID = "" ∨ req.sessionCharacter = "" ∨ req.triggerEvent.trigger = "" ∨
      ∃ p ∈ req.triggerEvent.parameters, p.name = "" ∨ p.value = "") :
    (∃ msg, SendTriggerReq req = .error msg) ∧ networkCalls (SendTriggerReq req) = 0 := by
  have h : ∃ msg, SendTriggerReq req = .error msg := by
    by_cases h1 : req.sessionID = ""
    · exact ⟨"session id is required", by simp [SendTriggerReq, h1]⟩
    by_cases h2 : req.sessionCharacter = ""
    · exact ⟨"session character is required", by simp [SendTriggerReq, h1, h2]⟩
    by_cases h3 : req.triggerEvent.trigger = ""
    · exact ⟨"trigger is required", by simp [SendTriggerReq, h1, h2, h3]⟩
    have hp : ∃ p ∈ req.triggerEvent.parameters, p.name = "" ∨ p.value = "" := by
      rcases hbad with h | h | h | hp2
      · exact absurd h h1
      · exact absurd h h2
      · exact absurd h h3
      · exact hp2
    obtain ⟨m, hm⟩ := checkParameters_some_of_bad _ hp
    exact ⟨m, by simp [SendTriggerReq, h1, h2, h3, hm]⟩
  obtain ⟨m, hm⟩ := h
  exact ⟨⟨m, hm⟩, by simp [networkCalls, hm]⟩

/-- C10 witness: a request whose only flaw is one parameter with an empty
name is rejected with zero network calls. -/
theorem sendTrigger_validates_before_network_witness :
    (∃ msg, SendTriggerReq
      { sessionID := "s1", sessionCharacter := "workspaces/w/sessions/s1/sessionCharacters/c1",
        triggerEvent := { trigger := "workspaces/w/triggers/t1",
                          parameters := [⟨"", "v"⟩] } } = .error msg) ∧
    networkCalls (SendTriggerReq
      { sessionID := "s1", sessionCharacter := "workspaces/w/sessions/s1/sessionCharacters/c1",
        triggerEvent := { trigger := "workspaces/w/triggers/t1",
                          parameters := [⟨"", "v"⟩] } }) = 0 :=
  sendTrigger_validates_before_network
    { sessionID := "s1", sessionCharacter := "workspaces/w/sessions/s1/sessionCharacters/c1",
      triggerEvent := { trigger := "workspaces/w/triggers/t1", parameters := [⟨"", "v"⟩] } }
    (by right; right; right; exact ⟨⟨"", "v"⟩, by simp, Or.inl rfl⟩)

end Inworld
